import Mathlib

/-!
Verification of the mcp-gateway bridge session protocol, log shipper and relay
client against their implementation (`src/mcp_gateway/core/bridge.py`,
`src/mcp_gateway/core/logging.py`, `src/mcp_gateway/cli.py`).

The Python code is shallowly embedded: JSON values are an inductive type,
pydantic v2 model validation is an explicit partial parse, the bridge's
`handle_message` becomes a pure function from a state and an incoming message
to a new state plus the list of JSON objects written to the websocket (writes
are assumed to succeed), and the relay client's two loops become step
functions on an explicit relay state.
-/

namespace MCPGateway

/-- JSON values as produced by Python's `json.loads`.  Numbers are restricted
to integers, which covers every value the embedded code paths inspect. -/
inductive Json where
  | null
  | bool (b : Bool)
  | int (n : Int)
  | str (s : String)
  | arr (elems : List Json)
  | obj (fields : List (String × Json))

/-- Lookup `d.get(k)` on a parsed JSON object (keys are unique in a Python dict):
the value at the first occurrence of `k`, or `none` when absent. -/
def Json.get? (fields : List (String × Json)) (k : String) : Option Json :=
  (fields.find? (fun p => p.1 == k)).map (·.2)

/-- Whether a JSON value is a string. -/
def Json.isStr : Json → Bool
  | .str _ => true
  | _ => false

/-! ## Pydantic models (`bridge.py` lines 45-68)

The repository uses pydantic v2 (`ConfigDict`, `model_dump`).  In its default
("smart") mode a `str` field accepts only JSON strings — in particular an
integer is *not* coerced to a string — and a `Dict[str, Any]` field accepts
only JSON objects. -/

/-- Model `class MCPRequest(BaseModel)` (`bridge.py` 45-49): `jsonrpc: str = "2.0"`,
`method: str`, `params: Optional[Dict[str, Any]] = None`, `id: str`. -/
structure MCPRequest where
  jsonrpc : String
  method : String
  params : Option (List (String × Json))
  id : String

/-- Pydantic v2 validation of a required `str` field: only a JSON string
validates; an absent field, `null`, or any other type is an error. -/
def validateStr : Option Json → Option String
  | some (.str s) => some s
  | _ => none

/-- Pydantic v2 validation of a `str` field with a default: an absent field
takes the default; a present field must be a JSON string (an explicit `null`
does not fall back to the default). -/
def validateStrDefault (dflt : String) : Option Json → Option String
  | none => some dflt
  | some (.str s) => some s
  | some _ => none

/-- Pydantic v2 validation of an `Optional[Dict[str, Any]] = None` field:
absent or `null` gives `None`; a JSON object gives the dict; anything else is
an error. -/
def validateOptObj : Option Json → Option (Option (List (String × Json)))
  | none => some none
  | some .null => some none
  | some (.obj l) => some (some l)
  | some _ => none

/-- Validation `MCPRequest(**message)`: validate every field of the incoming dict
(extra keys are ignored, the default pydantic behaviour); the model is
produced only when all four fields validate. -/
def parseMCPRequest (m : List (String × Json)) : Option MCPRequest :=
  match validateStrDefault "2.0" (Json.get? m "jsonrpc"),
        validateStr (Json.get? m "method"),
        validateOptObj (Json.get? m "params"),
        validateStr (Json.get? m "id") with
  | some j, some meth, some p, some i =>
      some { jsonrpc := j, method := meth, params := p, id := i }
  | _, _, _, _ => none

/-- Model `class MCPResponse(BaseModel)` (`bridge.py` 51-57): `jsonrpc: str = "2.0"`,
`id: str`, `result: Optional[Dict[str, Any]] = None`,
`error: Optional[Dict[str, Any]] = None`. -/
structure MCPResponse where
  jsonrpc : String
  id : String
  result : Option (List (String × Json))
  error : Option (List (String × Json))

/-- Pydantic v2 construction `MCPResponse(id=idv, result=resultv, error=errorv)`
from raw values (Python `None` is passed as `.null` here): the `id` must be a
string (an integer id is a validation error — pydantic v2 does not coerce
`int` to `str`), `result`/`error` must each be a dict or `None`. -/
def MCPResponse.validate (idv resultv errorv : Json) : Option MCPResponse :=
  match validateStr (some idv),
        validateOptObj (some resultv),
        validateOptObj (some errorv) with
  | some i, some r, some e =>
      some { jsonrpc := "2.0", id := i, result := r, error := e }
  | _, _, _ => none

/-- Serialization `MCPResponse.model_dump` (`bridge.py` 59-68): dump all fields in
declaration order, stringify `id` (already a string in a validated model),
and delete the `error` key when it is `None`.  The `result` key is always
kept, as `null` when the field is `None`. -/
def MCPResponse.dump (r : MCPResponse) : List (String × Json) :=
  let base := [("jsonrpc", Json.str r.jsonrpc), ("id", Json.str r.id),
               ("result", match r.result with
                          | none => Json.null
                          | some l => Json.obj l)]
  match r.error with
  | none => base
  | some l => base ++ [("error", Json.obj l)]

/-! ## The bridge session (`bridge.py` 70-363) -/

/-- The per-connection mutable state of `MCPBridge` that the message handler
reads or writes: `isInit` models the `self.initialized` flag (the field name
is shortened from the source's attribute name). -/
structure BridgeState where
  isInit : Bool

/-- Model `class MCPMethod(BaseModel)` (`tools/base.py` 7-13): a method
*descriptor* with the fields `name`, `description`, `parameters`,
`returns` and `is_async` (`isAsync` here) — and nothing else.  In
particular it has no handler attribute of any kind: the `mcp_method`
decorator attaches only this descriptor to the decorated function
(`tools/base.py` 58-68), and `MCPTool._register_methods`
(`tools/base.py` 25-29) stores the descriptor, not the function, in
`self.methods`. -/
structure MCPMethod where
  name : String
  description : String
  parameters : Json
  returns : Json
  isAsync : Bool

/-- A capability-table entry as `ToolRegistry.get_tool` returns it
(`tools/base.py` 15-29): `tool.methods` maps a method name to its
`MCPMethod` descriptor. -/
structure MCPTool where
  methods : String → Option MCPMethod

/-- The outcome of `handle_message`: the state afterwards and the JSON
objects sent over the websocket, in order (sends are assumed to succeed). -/
structure HandleResult where
  state : BridgeState
  sent : List (List (String × Json))

/-- Helper `_send_error(code, message, request_id)` (`bridge.py` 335-353): build
`MCPResponse(id=request_id, result=None, error={code, message})`, dump it,
and re-add a `"result": null` key if absent (a no-op, since `model_dump`
keeps the `result` key).  Returns the dict written to the websocket. -/
def sendErrorDict (code : Int) (message : String) (requestId : String) :
    List (String × Json) :=
  let d := MCPResponse.dump
    { jsonrpc := "2.0", id := requestId, result := none,
      error := some [("code", Json.int code), ("message", Json.str message)] }
  if (Json.get? d "result").isSome then d else d ++ [("result", Json.null)]

/-- Helper `_send_response(result, request_id)` (`bridge.py` 317-333): construct
`MCPResponse(id=request_id, result=result, error=None)` and send its dump; a
pydantic validation error (the handler's value is neither a dict nor `None`)
is caught and *nothing* is sent. -/
def sendResponseMsgs (result : Json) (requestId : String) :
    List (List (String × Json)) :=
  match MCPResponse.validate (Json.str requestId) result Json.null with
  | some r => [r.dump]
  | none => []

/-- The hard-coded `result` of the quick-path response to an
`initialize` message (`bridge.py` 107-145). -/
def quickInitResult : Json :=
  Json.obj [
    ("protocol", Json.obj [
      ("version", Json.str "2024-11-05"),
      ("capabilities", Json.obj [
        ("tools", Json.bool true), ("resources", Json.bool false),
        ("prompts", Json.bool false), ("sampling", Json.bool false)])]),
    ("tools", Json.obj [
      ("minimal", Json.obj [
        ("name", Json.str "minimal"),
        ("description", Json.str "Minimal tool that echoes text"),
        ("version", Json.str "1.0.0"),
        ("methods", Json.obj [
          ("echo", Json.obj [
            ("name", Json.str "echo"),
            ("description", Json.str "Echo back the input"),
            ("parameters", Json.obj [
              ("text", Json.obj [
                ("type", Json.str "string"),
                ("description", Json.str "Text to echo")])]),
            ("returns", Json.obj [
              ("type", Json.str "string"),
              ("description", Json.str "The same text that was input")]),
            ("is_async", Json.bool true)])])])])]

/-- The `protocol` part of the capabilities response built by
`_handle_initialize` (`bridge.py` 245-256). -/
def protocolInfo : Json :=
  Json.obj [
    ("version", Json.str "2024-11-05"),
    ("capabilities", Json.obj [
      ("tools", Json.bool true), ("resources", Json.bool false),
      ("prompts", Json.bool false), ("sampling", Json.bool false)])]

/-- Python truthiness of `request.params`: `if request.params:` is true only
for a present, non-empty dict (`None` and `{}` are falsy). -/
def paramsTruthy : Option (List (String × Json)) → Bool
  | some (_ :: _) => true
  | _ => false

/-- Handler `_handle_initialize(request)` (`bridge.py` 201-266): reject a truthy
`params` with `-32602`; reject an already-handshaken session with `-32002`;
otherwise set the flag and reply with the capabilities snapshot `caps`
(the result of `ToolRegistry.get_capabilities()`, a parameter here). -/
def handleInit (caps : Json) (st : BridgeState) (req : MCPRequest) :
    HandleResult :=
  if paramsTruthy req.params then
    ⟨st, [sendErrorDict (-32602)
      "Invalid params: initialize request does not accept parameters" req.id]⟩
  else if st.isInit then
    ⟨st, [sendErrorDict (-32002) "Server already initialized" req.id]⟩
  else
    ⟨{ isInit := true },
      sendResponseMsgs (Json.obj [("protocol", protocolInfo), ("tools", caps)])
        req.id⟩

/-- Python's membership test `"." in method` for the single-character
separator: some character of the string is a dot. -/
def hasDot (s : String) : Bool := s.data.any (fun c => c == '.')

/-- Python's `method.split(".", 1)`: the part before the first dot and the
remainder after it (used only when the method contains a dot). -/
def splitMethod (s : String) : String × String :=
  (⟨s.data.takeWhile (fun c => c != '.')⟩,
   ⟨(s.data.dropWhile (fun c => c != '.')).drop 1⟩)

/-- Python's `str(e)` for the exception raised at `bridge.py` 307:
`tool.methods[method_name].handler` accesses the attribute `handler` on an
`MCPMethod` descriptor, which has no such field, so pydantic's
`__getattr__` raises `AttributeError` with this message. -/
def handlerAttrError : String :=
  "\x27MCPMethod\x27 object has no attribute \x27handler\x27"

/-- Handler `_handle_method_call(request)` (`bridge.py` 268-315): a method
without a dot, an unknown tool, or an unknown method replies `-32601`.
When the tool and the method descriptor are both found, line 307 evaluates
`tool.methods[method_name].handler(tool, **(request.params or {}))`: the
attribute access raises `AttributeError` (the capability table stores
handler-less `MCPMethod` descriptors, see `MCPMethod` above), the `except`
at lines 310-315 catches it, and the reply is `-32000` with the
exception's string — the `_send_response` success branch at line 308 is
unreachable for every tool the repository can register. -/
def handleMethodCall (registry : String → Option MCPTool) (st : BridgeState)
    (req : MCPRequest) : HandleResult :=
  if ¬ hasDot req.method then
    ⟨st, [sendErrorDict (-32601)
      ("Method \x27" ++ req.method ++ "\x27 not found") req.id]⟩
  else
    let (toolName, methodName) := splitMethod req.method
    match registry toolName with
    | none =>
        ⟨st, [sendErrorDict (-32601)
          ("Tool \x27" ++ toolName ++ "\x27 not found") req.id]⟩
    | some tool =>
        match tool.methods methodName with
        | none =>
            ⟨st, [sendErrorDict (-32601)
              ("Method \x27" ++ methodName ++ "\x27 not found") req.id]⟩
        | some _ =>
            ⟨st, [sendErrorDict (-32000) handlerAttrError req.id]⟩

/-- The quick-path guard at `bridge.py` 102: the raw message's `method` is
the string `"initialize"` and its `jsonrpc` is the string `"2.0"`. -/
def quickPathCond (m : List (String × Json)) : Bool :=
  (match Json.get? m "method" with
   | some (.str s) => s == "initialize"
   | _ => false) &&
  (match Json.get? m "jsonrpc" with
   | some (.str s) => s == "2.0"
   | _ => false)

/-- Entry point `handle_message(message)` (`bridge.py` 93-199) with the registry and the
capability snapshot as parameters.  The quick path (lines 102-152) fires for
any raw message whose `method` is `"initialize"` and `jsonrpc` is `"2.0"`,
sends a hard-coded success response with the raw `id` (default `"0"`) and
sets `initialized = True` — before and regardless of any request validation
or of the session's current state.  Otherwise the message is validated as an
`MCPRequest` (failure: error `-32600` with id `""`), then dispatched: an
`initialize` method goes to `_handle_initialize`, any other method before
the handshake is rejected with `-32002`, and after the handshake it goes to
`_handle_method_call`. -/
def handleMessage (caps : Json) (registry : String → Option MCPTool)
    (st : BridgeState) (m : List (String × Json)) : HandleResult :=
  if quickPathCond m then
    ⟨{ isInit := true },
      [[("jsonrpc", Json.str "2.0"),
        ("id", (Json.get? m "id").getD (Json.str "0")),
        ("result", quickInitResult)]]⟩
  else
    match parseMCPRequest m with
    | none => ⟨st, [sendErrorDict (-32600) "Invalid Request" ""]⟩
    | some req =>
        if req.method = "initialize" then handleInit caps st req
        else if st.isInit = false then
          ⟨st, [sendErrorDict (-32002) "Server not initialized" req.id]⟩
        else handleMethodCall registry st req

/-! ## Log shipper: failure path of `BridgeLogger.flush` (`logging.py` 105-159)

Records are represented by their timestamps (a `Nat`): a record logged later
has a strictly larger timestamp.  `flush` swaps the batch out of the live
buffer (`logs_to_send = buffer[:]; buffer.clear()`) and, when the final
delivery attempt also fails, runs the merge below, where `live` is whatever
`self.buffer` holds at that moment — the records appended by `log()` calls
that ran during the flush's awaits, all *newer* than the batch. -/

/-- Python's `l[-n:]`: the last `n` elements — except that `l[-0:]` is the
whole list. -/
def pythonTakeLast (n : Nat) (l : List α) : List α :=
  if n = 0 then l else l.drop (l.length - n)

/-- The final-attempt failure branch of `BridgeLogger.flush` (`logging.py`
153-158): `self.buffer.extend(logs_to_send)`, then
`if len(self.buffer) > self.buffer_size * 2: self.buffer =
self.buffer[-self.buffer_size:]`.  Returns the new live buffer. -/
def flushFailedMerge (live batch : List Nat) (bufferSize : Nat) : List Nat :=
  let merged := live ++ batch
  if merged.length > bufferSize * 2 then pythonTakeLast bufferSize merged
  else merged

/-! ## Relay client (`cli.py`, stdin/stdout bridge mode)

The shared structures of the two loops (`cli.py` 729-743): the set of
fingerprints already enqueued by the socket worker
(`processed_response_ids`), the set of fingerprints already written to the
local peer (`sent_response_ids`), the response queue, the pending-request
table and the `connection_initialized` flag (`connInit` here). -/

structure RelayState where
  processedIds : List String
  sentIds : List String
  queue : List Json
  pending : List (String × Json)
  connInit : Bool

/-- The empty relay state at process start. -/
def RelayState.start : RelayState :=
  { processedIds := [], sentIds := [], queue := [], pending := [],
    connInit := false }

/-- Python `str(v)` for the scalar JSON values that occur as response ids
(used only inside fingerprints; composite values do not occur as ids and
only the determinism of the rendering is relied upon). -/
def pyStr : Json → String
  | .null => "None"
  | .bool true => "True"
  | .bool false => "False"
  | .int n => toString n
  | .str s => s
  | .arr _ => "[...]"
  | .obj _ => "\x7b...\x7d"

/-- Python `f"{resp_id}"` where `resp_id` may be `None`. -/
def pyStrOpt : Option Json → String
  | none => "None"
  | some v => pyStr v

/-- The test `resp_id == 0 or resp_id == "0"` at `cli.py` 838 (in Python,
`False == 0` also holds). -/
def isInitRespId : Json → Bool
  | .int 0 => true
  | .str "0" => true
  | .bool false => true
  | _ => false

/-- Check of `response.get("method")` against a string, for the pending-table filters. -/
def jsonMethodIs (v : Json) (name : String) : Bool :=
  match v with
  | .obj l => match Json.get? l "method" with
              | some (.str s) => s == name
              | _ => false
  | _ => false

/-- Extraction `resp_id = response.get("id")` at `cli.py` 834 (a JSON
`null` id and an absent id are both Python `None`). -/
def normRespId (m : Json) : Option Json :=
  match m with
  | .obj l => match Json.get? l "id" with
              | some .null => none
              | x => x
  | _ => none

/-- One received socket message in the worker's main loop (`cli.py`
832-872), after `json.loads` succeeded; `h` abstracts
`hash(json.dumps(response))` (a deterministic function of the parsed
value).  An id equal to `0`/`"0"` takes the `initialize`-response branch
keyed `initialize-{hash}`; any other non-`None` id takes the general branch
keyed `response-{id}-{hash}`; a message without an id (or with id `null`)
is not enqueued at all.  A fingerprint already in `processed_response_ids`
leaves the state unchanged (the redelivered message is dropped). -/
def recvResponse (h : Json → Int) (st : RelayState) (m : Json) : RelayState :=
  match normRespId m with
  | none => st
  | some v =>
    if isInitRespId v then
      let key := "initialize-" ++ toString (h m)
      if st.processedIds.contains key then st
      else
        { st with queue := st.queue ++ [m],
                  processedIds := key :: st.processedIds,
                  connInit := true,
                  pending := st.pending.filter
                    (fun p => ¬ jsonMethodIs p.2 "initialize") }
    else
      let key := "response-" ++ pyStr v ++ "-" ++ toString (h m)
      if st.processedIds.contains key then st
      else
        { st with queue := st.queue ++ [m],
                  processedIds := key :: st.processedIds,
                  pending := st.pending.filter (fun p => p.1 ≠ pyStr v) }

/-- The `sent-{id}-{hash}` fingerprint of the local-peer loop
(`cli.py` 1058-1062). -/
def sentKey (h : Json → Int) (m : Json) : String :=
  let respId : Option Json :=
    match m with
    | .obj l => Json.get? l "id"
    | _ => none
  "sent-" ++ pyStrOpt respId ++ "-" ++ toString (h m)

/-- Draining the response queue in the local-peer loop (`cli.py`
1050-1100), with every stdout write succeeding on the first try: each
popped response is skipped when its `sent-` fingerprint was already
recorded, otherwise written to the local peer and recorded.  Returns the
final `sent_response_ids` and the list of responses actually written. -/
def drainList (h : Json → Int) (sent : List String) :
    List Json → List String × List Json
  | [] => (sent, [])
  | r :: rest =>
    if sent.contains (sentKey h r) then drainList h sent rest
    else
      let out := drainList h (sentKey h r :: sent) rest
      (out.1, r :: out.2)

/-- Drain the whole queue of a relay state; returns the new state and the
responses written to the local peer's stdout. -/
def drainAll (h : Json → Int) (st : RelayState) : RelayState × List Json :=
  let out := drainList h st.sentIds st.queue
  ({ st with queue := [], sentIds := out.1 }, out.2)

/-! ## Connection-loss handling

Two distinct loops exist in `cli.py`: `run_bridge` (lines 301-340, the
`--api-key` heartbeat mode) and `connect_and_process` (lines 749-943, the
socket worker of the stdin/stdout relay). -/

/-- The outcome of one connection attempt / established connection. -/
inductive ConnEvent where
  | invalidStatus (statusCode : Nat)
  | connectionClosed (closeCode : Nat)
  | recvError
  | otherError

/-- What the loop does next after the event. -/
inductive WorkerAction where
  | retryAfter (seconds : Nat)
  | terminate

/-- Whether two worker actions are the same. -/
def WorkerAction.isTerminate : WorkerAction → Bool
  | .terminate => true
  | _ => false

/-- Failure handling of the relay socket worker `connect_and_process`
(`cli.py` 905-918 and 920-932): an `InvalidStatusCode` from the websocket
handshake — of any status, 403 included — sleeps 5 seconds and continues
the connection loop; so does a `ConnectionClosed` or any other error
re-raised from the processing loop (lines 883-889, caught at 912-918).
No event makes this worker stop retrying. -/
def socketWorkerStep : ConnEvent → WorkerAction
  | .invalidStatus _ => .retryAfter 5
  | .connectionClosed _ => .retryAfter 5
  | .recvError => .retryAfter 5
  | .otherError => .retryAfter 5

/-- Failure handling of `run_bridge` (`cli.py` 321-336): a
`ConnectionClosed` with code 4001 cancels the heartbeat and returns; other
close codes sleep 5 seconds and reconnect; an `InvalidStatusCode` returns
whether or not the status is 403 (the 403 branch additionally cancels the
heartbeat); any other exception sleeps 5 seconds and reconnects. -/
def runBridgeStep : ConnEvent → WorkerAction
  | .invalidStatus _ => .terminate
  | .connectionClosed c => if c = 4001 then .terminate else .retryAfter 5
  | .recvError => .retryAfter 5
  | .otherError => .retryAfter 5

/-- The number of connection attempts a loop with step function `step`
makes when successive attempts end with the given events: each event
consumes one attempt, and a further attempt follows exactly when the step
says to retry. -/
def attemptsMade (step : ConnEvent → WorkerAction) : List ConnEvent → Nat
  | [] => 0
  | e :: rest =>
    1 + (match step e with
         | .retryAfter _ => attemptsMade step rest
         | .terminate => 0)

/-! ## Concrete inputs used to evaluate the model -/

/-- A registry with no tools. -/
def emptyRegistry : String → Option MCPTool := fun _ => none

/-- The `MCPMethod` descriptors registered for `MinimalTool`
(`tools/minimal_tool.py`): `get_current_time`, `get_platform_info` and
`echo`, each stored by `_register_methods` under its function name; all
three are coroutine functions, so `is_async` is true. -/
def minimalToolMethods : String → Option MCPMethod := fun mn =>
  if mn = "get_current_time" then
    some { name := "get_current_time",
           description := "Get current date and time",
           parameters := Json.obj [],
           returns := Json.obj [("type", Json.str "string"),
             ("description", Json.str "Current date and time")],
           isAsync := true }
  else if mn = "get_platform_info" then
    some { name := "get_platform_info",
           description := "Get platform information",
           parameters := Json.obj [],
           returns := Json.obj [("type", Json.str "object"),
             ("description", Json.str "Platform information")],
           isAsync := true }
  else if mn = "echo" then
    some { name := "echo",
           description := "Echo back the input",
           parameters := Json.obj [("text", Json.obj [
             ("type", Json.str "string"),
             ("description", Json.str "Text to echo")])],
           returns := Json.obj [("type", Json.str "string"),
             ("description", Json.str "The same text that was input")],
           isAsync := true }
  else none

/-- The registered `MinimalTool` instance, named `minimal`. -/
def minimalTool : MCPTool := { methods := minimalToolMethods }

/-- The `ToolRegistry` as `tools/__init__.py` populates it:
`MinimalTool` is always registered under its name `minimal`
(`SystemInfoTool` is registered only when its import succeeds and plays
no role in the evaluated inputs). -/
def toolRegistry : String → Option MCPTool :=
  fun name => if name = "minimal" then some minimalTool else none

/-- A well-formed `minimal.echo` request message. -/
def echoCallMsg : List (String × Json) :=
  [("jsonrpc", Json.str "2.0"), ("method", Json.str "minimal.echo"),
   ("params", Json.obj [("text", Json.str "hi")]), ("id", Json.str "9")]

/-- A socket-layer response message with id `"5"`. -/
def respMsg5 : Json :=
  Json.obj [("jsonrpc", Json.str "2.0"), ("id", Json.str "5"),
            ("result", Json.obj [("ok", Json.bool true)])]

/-- A constant stand-in for Python's `hash` in concrete evaluations. -/
def constHash : Json → Int := fun _ => 0

/-! ## Helper lemmas -/

theorem validateStr_some {o : Option Json} {s : String}
    (h : validateStr o = some s) : o = some (Json.str s) := by
  rcases o with _ | v
  · exact absurd h (by simp [validateStr])
  · cases v <;> simp_all [validateStr]

theorem parse_method_eq {m : List (String × Json)} {req : MCPRequest}
    (h : parseMCPRequest m = some req) :
    Json.get? m "method" = some (Json.str req.method) := by
  unfold parseMCPRequest at h
  rcases hj : validateStrDefault "2.0" (Json.get? m "jsonrpc") with _ | j <;>
    rcases hm : validateStr (Json.get? m "method") with _ | meth <;>
    rcases hp : validateOptObj (Json.get? m "params") with _ | p <;>
    rcases hi : validateStr (Json.get? m "id") with _ | i <;>
    rw [hj, hm, hp, hi] at h <;> simp at h
  subst h
  exact validateStr_some hm

theorem parse_none_of_no_method {m : List (String × Json)}
    (hm : Json.get? m "method" = none) : parseMCPRequest m = none := by
  unfold parseMCPRequest
  rw [hm]
  rcases validateStrDefault "2.0" (Json.get? m "jsonrpc") with _ | j <;>
    rcases validateOptObj (Json.get? m "params") with _ | p <;>
    rcases validateStr (Json.get? m "id") with _ | i <;> rfl

theorem parse_none_of_bad_id {m : List (String × Json)} {v : Json}
    (hid : Json.get? m "id" = some v) (hv : v.isStr = false) :
    parseMCPRequest m = none := by
  have hnone : validateStr (Json.get? m "id") = none := by
    rw [hid]; cases v <;> simp [validateStr, Json.isStr] at hv ⊢
  unfold parseMCPRequest
  rw [hnone]
  rcases validateStrDefault "2.0" (Json.get? m "jsonrpc") with _ | j <;>
    rcases validateStr (Json.get? m "method") with _ | meth <;>
    rcases validateOptObj (Json.get? m "params") with _ | p <;> rfl

theorem handleMessage_of_parse_fail {caps : Json}
    {registry : String → Option MCPTool} {st : BridgeState}
    {m : List (String × Json)} (hq : quickPathCond m = false)
    (hp : parseMCPRequest m = none) :
    handleMessage caps registry st m
      = ⟨st, [sendErrorDict (-32600) "Invalid Request" ""]⟩ := by
  unfold handleMessage
  rw [hq, hp]
  rfl

theorem quickPathCond_false_of_no_method {m : List (String × Json)}
    (hm : Json.get? m "method" = none) : quickPathCond m = false := by
  unfold quickPathCond
  rw [hm]
  rfl

theorem quickPathCond_false_of_method {m : List (String × Json)} {s : String}
    (hm : Json.get? m "method" = some (Json.str s))
    (hs : s ≠ "initialize") : quickPathCond m = false := by
  unfold quickPathCond
  rw [hm]
  simp [hs]

/-! ## Claim C8 -/

/-- C8, counterexample: the claim "an error response carries an error field
and no result field" is false — the error response serialized by
`_send_error` for code `-32002` and id `"2"` contains an explicit
`"result": null` key alongside its `"error"` key. -/
theorem c8_errorResponseHasResultField :
    Json.get? (sendErrorDict (-32002) "Server already initialized" "2")
        "result" = some Json.null ∧
    Json.get? (sendErrorDict (-32002) "Server already initialized" "2")
        "error"
      = some (Json.obj [("code", Json.int (-32002)),
                        ("message", Json.str "Server already initialized")]) :=
  ⟨rfl, rfl⟩

/-- C8, amended: every success response serialized by the bridge session
carries a `result` field and no `error` field, while every error response
carries an `error` field *and* an explicit `result` field set to `null`
(so exactly one of the two is non-null, but both keys appear on errors). -/
theorem c8_resultErrorFields (res : List (String × Json)) (rid : String)
    (code : Int) (msg : String) :
    Json.get? (MCPResponse.dump ⟨"2.0", rid, some res, none⟩) "result"
      = some (Json.obj res) ∧
    Json.get? (MCPResponse.dump ⟨"2.0", rid, some res, none⟩) "error"
      = none ∧
    Json.get? (sendErrorDict code msg rid) "error"
      = some (Json.obj [("code", Json.int code), ("message", Json.str msg)]) ∧
    Json.get? (sendErrorDict code msg rid) "result" = some Json.null :=
  ⟨rfl, rfl, rfl, rfl⟩

/-! ## Claim C9 -/

/-- C9, counterexample: constructing an `MCPResponse` from the numeric id 7
does not succeed — pydantic v2 rejects an `int` for the `str` field `id`
at validation time, so the claimed numeric-id round-trip never happens. -/
theorem c9_numericIdConstructionFails :
    MCPResponse.validate (Json.int 7) (Json.obj []) Json.null = none := rfl

/-- C9, amended: constructing an `MCPResponse` from a numeric id always
fails pydantic validation (`id: str` does not coerce integers), so only
string ids round-trip: a response constructed from a string id serializes
with exactly that string as its `id`. -/
theorem c9_idRoundTrip (n : Int) (resultv errorv : Json) (s : String)
    (res : List (String × Json)) :
    MCPResponse.validate (Json.int n) resultv errorv = none ∧
    MCPResponse.validate (Json.str s) (Json.obj res) Json.null
      = some ⟨"2.0", s, some res, none⟩ ∧
    Json.get? (MCPResponse.dump ⟨"2.0", s, some res, none⟩) "id"
      = some (Json.str s) :=
  ⟨rfl, rfl, rfl⟩

/-! ## Claim C3 -/

/-- C3, counterexample: after the websocket handshake is rejected with
`InvalidStatusCode` 403 (an authentication failure), the relay client's
socket worker does *not* terminate: it schedules a retry after the fixed
5-second backoff, and with a second such rejection it has made two
connection attempts — a further attempt after an auth rejection, which the
claim forbids. -/
theorem c3_workerRetriesAfterAuthFailure :
    socketWorkerStep (.invalidStatus 403) = .retryAfter 5 ∧
    (socketWorkerStep (.invalidStatus 403)).isTerminate = false ∧
    attemptsMade socketWorkerStep
      [.invalidStatus 403, .invalidStatus 403] = 2 :=
  ⟨rfl, rfl, rfl⟩

/-- C3, amended: the relay client's socket worker (`connect_and_process`)
retries after the fixed 5-second backoff on *every* connection failure,
authentication rejections (`InvalidStatusCode`, e.g. 403) included; only
the separate `run_bridge` loop of the api-key mode terminates permanently
on an auth failure (close code 4001, or any invalid handshake status),
while retrying non-auth closures after 5 seconds. -/
theorem c3_retryBehaviour (e : ConnEvent) (c : Nat) (hc : c ≠ 4001) :
    socketWorkerStep e = .retryAfter 5 ∧
    runBridgeStep (.invalidStatus 403) = .terminate ∧
    runBridgeStep (.connectionClosed 4001) = .terminate ∧
    runBridgeStep (.connectionClosed c) = .retryAfter 5 := by
  refine ⟨?_, rfl, rfl, ?_⟩
  · cases e <;> rfl
  · simp [runBridgeStep, hc]

/-- C3, witness for the amended theorem at concrete inputs. -/
theorem c3_retryBehaviour_witness :
    socketWorkerStep (.connectionClosed 1006) = .retryAfter 5 ∧
    runBridgeStep (.connectionClosed 1006) = .retryAfter 5 :=
  ⟨(c3_retryBehaviour (.connectionClosed 1006) 1006 (by decide)).1,
   (c3_retryBehaviour (.connectionClosed 1006) 1006 (by decide)).2.2.2⟩

/-! ## Claim C4 -/

/-- C4, counterexample: with `bufferSize = 1`, an undelivered batch of
records stamped 1 and 2 and a record stamped 10 logged during the flush
(the newest record, sitting in the live buffer at merge time), the merge
retains `[2]` and discards the newest record 10 — retention is *not*
newest-first, because the batch is appended after the newer live records
and the trim keeps the positional tail. -/
theorem c4_notNewestFirst :
    flushFailedMerge [10] [1, 2] 1 = [2] ∧
    10 ∉ flushFailedMerge [10] [1, 2] 1 := by
  constructor <;> decide

/-- C4, amended: the undelivered batch is appended *after* any records
logged during the flush, and when the merged buffer exceeds `2 × bufferSize`
(with a positive `bufferSize`) it is trimmed to its last `bufferSize`
entries — a suffix of live-buffer-then-batch.  Only when no records arrived
during the flush (empty live buffer) does this coincide with newest-first
retention: the kept records are then the final `bufferSize` of the batch,
and in a timestamp-sorted buffer every discarded record is no newer than
every retained one. -/
theorem flushFailedMerge_suffix (live batch : List Nat) (bs : Nat) :
    flushFailedMerge live batch bs <:+ live ++ batch := by
  simp only [flushFailedMerge, pythonTakeLast]
  by_cases hlen : (live ++ batch).length > bs * 2
  · rw [if_pos hlen]
    by_cases h0 : bs = 0
    · rw [if_pos h0]
    · rw [if_neg h0]
      exact List.drop_suffix _ _
  · rw [if_neg hlen]

theorem c4_trimKeepsSuffix (live batch : List Nat) (bs : Nat) :
    flushFailedMerge live batch bs <:+ live ++ batch ∧
    (0 < bs → 2 * bs < (live ++ batch).length →
      (flushFailedMerge live batch bs).length = bs) ∧
    (0 < bs → 2 * bs < batch.length →
      flushFailedMerge [] batch bs = batch.drop (batch.length - bs)) ∧
    (List.Sorted (· ≤ ·) (live ++ batch) →
      ∀ x ∈ live ++ batch, x ∉ flushFailedMerge live batch bs →
        ∀ y ∈ flushFailedMerge live batch bs, x ≤ y) := by
  refine ⟨flushFailedMerge_suffix live batch bs, ?_, ?_, ?_⟩
  · intro hbs hlen
    simp only [flushFailedMerge, pythonTakeLast]
    rw [if_pos (show (live ++ batch).length > bs * 2 by omega),
        if_neg (show ¬ bs = 0 by omega), List.length_drop]
    omega
  · intro hbs hlen
    simp only [flushFailedMerge, pythonTakeLast, List.nil_append]
    rw [if_pos (show batch.length > bs * 2 by omega),
        if_neg (show ¬ bs = 0 by omega)]
  · intro hsort x hx hnx y hy
    obtain ⟨pre, hpre⟩ := flushFailedMerge_suffix live batch bs
    rw [← hpre] at hsort hx
    rcases List.mem_append.mp hx with hxp | hxr
    · exact (List.pairwise_append.mp hsort).2.2 x hxp y hy
    · exact absurd hxr hnx

/-- C4, witness for the amended theorem at concrete inputs. -/
theorem c4_trimKeepsSuffix_witness :
    flushFailedMerge [] [0, 1, 2] 1 = [0, 1, 2].drop ([0, 1, 2].length - 1) ∧
    (flushFailedMerge [3] [0, 1, 2] 1).length = 1 :=
  ⟨(c4_trimKeepsSuffix [] [0, 1, 2] 1).2.2.1 (by decide) (by decide),
   (c4_trimKeepsSuffix [3] [0, 1, 2] 1).2.1 (by decide) (by decide)⟩

/-! ## Claim C1 -/

/-- C1: evaluation of `handle_message` at the failing input — a second
`initialize` request (`jsonrpc: "2.0"`, id `"2"`) on an already-handshaken
session.  The quick path at `bridge.py` 102-152 fires before the
`self.initialized` guard of `_handle_initialize` is ever consulted: the
bridge sends the hard-coded *success* result (no `error` key at all, hence
no `-32002`) and re-runs `initialized = True`, contradicting the claim,
the spec, and the `-32002`/`-32602` guards the same file implements at
lines 206-221. -/
theorem c1_secondInitGetsQuickSuccess :
    handleMessage (Json.obj []) emptyRegistry ⟨true⟩
      [("jsonrpc", Json.str "2.0"), ("method", Json.str "initialize"),
       ("id", Json.str "2")] =
    ⟨⟨true⟩,
     [[("jsonrpc", Json.str "2.0"), ("id", Json.str "2"),
       ("result", quickInitResult)]]⟩ ∧
    Json.get? [("jsonrpc", Json.str "2.0"), ("id", Json.str "2"),
       ("result", quickInitResult)] "error" = none :=
  ⟨rfl, rfl⟩

/-! ## Claim C2 -/

/-- C2: evaluation of `handle_message` at the failing input — an
`initialize` request with the non-empty params `{"invalid": "params"}`
(the exact message `tests/test_bridge.py` lines 159-171 sends, expecting
`-32602`).  The quick path intercepts it first: the bridge replies with
the hard-coded success result (no `-32602` error) and marks the session
initialized, contradicting both the claim and the repository's own test. -/
theorem c2_paramsInitGetsQuickSuccess :
    handleMessage (Json.obj []) emptyRegistry ⟨false⟩
      [("jsonrpc", Json.str "2.0"), ("method", Json.str "initialize"),
       ("params", Json.obj [("invalid", Json.str "params")]),
       ("id", Json.str "3")] =
    ⟨⟨true⟩,
     [[("jsonrpc", Json.str "2.0"), ("id", Json.str "3"),
       ("result", quickInitResult)]]⟩ ∧
    Json.get? [("jsonrpc", Json.str "2.0"), ("id", Json.str "3"),
       ("result", quickInitResult)] "error" = none :=
  ⟨rfl, rfl⟩

/-! ## Claim C6 -/

/-- C6, counterexample: a message that fails to parse into an `MCPRequest`
(its id is the integer 5, and `id: str` is required) but whose raw `method`
is `"initialize"` with `jsonrpc` `"2.0"` is *not* answered with `-32600`:
the quick path replies with a success result (echoing the unparseable raw
id) and advances the session state, so the claim's "or otherwise fails to
parse into a Request" generalization is false. -/
theorem c6_quickPathBeatsParseError :
    parseMCPRequest [("jsonrpc", Json.str "2.0"),
      ("method", Json.str "initialize"), ("id", Json.int 5)] = none ∧
    handleMessage (Json.obj []) emptyRegistry ⟨false⟩
      [("jsonrpc", Json.str "2.0"), ("method", Json.str "initialize"),
       ("id", Json.int 5)] =
    ⟨⟨true⟩, [[("jsonrpc", Json.str "2.0"), ("id", Json.int 5),
              ("result", quickInitResult)]]⟩ :=
  ⟨rfl, rfl⟩

/-- C6, amended: every incoming message missing the `method` field is
answered with error `-32600` and id `""` and leaves the session state
unchanged; the same holds for any other message that fails to validate as
an `MCPRequest`, *except* those whose raw `method` is `"initialize"` and
`jsonrpc` is `"2.0"`, which the quick-initialize path answers with a
success response instead. -/
theorem c6_missingMethodRejected (caps : Json)
    (registry : String → Option MCPTool) (st : BridgeState)
    (m : List (String × Json)) :
    (Json.get? m "method" = none →
      handleMessage caps registry st m
        = ⟨st, [sendErrorDict (-32600) "Invalid Request" ""]⟩) ∧
    (quickPathCond m = false → parseMCPRequest m = none →
      handleMessage caps registry st m
        = ⟨st, [sendErrorDict (-32600) "Invalid Request" ""]⟩) := by
  constructor
  · intro hm
    exact handleMessage_of_parse_fail (quickPathCond_false_of_no_method hm)
      (parse_none_of_no_method hm)
  · intro hq hp
    exact handleMessage_of_parse_fail hq hp

/-- C6, witness: the exact malformed message `{"invalid": "request"}` that
`tests/test_bridge.py` sends is answered with `-32600` and id `""`, the
state staying un-handshaken. -/
theorem c6_missingMethodRejected_witness :
    handleMessage (Json.obj []) emptyRegistry ⟨false⟩
      [("invalid", Json.str "request")]
      = ⟨⟨false⟩, [sendErrorDict (-32600) "Invalid Request" ""]⟩ :=
  (c6_missingMethodRejected (Json.obj []) emptyRegistry ⟨false⟩
      [("invalid", Json.str "request")]).1 rfl

/-! ## Claim C10 -/

/-- C10: any incoming message carrying a non-string id (and a method other
than `"initialize"`, so the quick path does not intercept it) fails
pydantic validation of `MCPRequest` — `id: str` is required and pydantic
v2 does not coerce — and the whole message is rejected with `-32600` and
id `""`, the session state unchanged. -/
theorem c10_nonStringIdRejected (caps : Json)
    (registry : String → Option MCPTool) (st : BridgeState)
    (m : List (String × Json)) (v : Json)
    (hid : Json.get? m "id" = some v) (hv : v.isStr = false)
    (hm : ∀ s, Json.get? m "method" = some (Json.str s) → s ≠ "initialize") :
    handleMessage caps registry st m
      = ⟨st, [sendErrorDict (-32600) "Invalid Request" ""]⟩ := by
  have hq : quickPathCond m = false := by
    unfold quickPathCond
    rcases hmm : Json.get? m "method" with _ | w
    · rfl
    · cases w <;> try rfl
      rename_i s
      have hne := hm s hmm
      simp [hne]
  exact handleMessage_of_parse_fail hq (parse_none_of_bad_id hid hv)

/-- C10, witness: the message `{"jsonrpc": "2.0", "method": "tools.list",
"id": 7}` with a numeric id is rejected with `-32600` and id `""`. -/
theorem c10_nonStringIdRejected_witness :
    handleMessage (Json.obj []) emptyRegistry ⟨false⟩
      [("jsonrpc", Json.str "2.0"), ("method", Json.str "tools.list"),
       ("id", Json.int 7)]
      = ⟨⟨false⟩, [sendErrorDict (-32600) "Invalid Request" ""]⟩ := by
  refine c10_nonStringIdRejected (Json.obj []) emptyRegistry ⟨false⟩ _
    (Json.int 7) rfl rfl ?_
  intro s hs
  have : Json.str "tools.list" = Json.str s := by
    simpa [Json.get?] using hs
  cases this
  decide

/-! ## Claim C5 -/

/-- C5: evaluation at the failing input.  Before the handshake the
`minimal.echo` call is rejected with `-32002` and the request's id, as the
claim states.  After the handshake, however, the claim's success routing
never happens: the call reaches `_handle_method_call`, the tool `minimal`
and the descriptor of `echo` are found in the capability table, and line
307's `.handler` attribute access raises `AttributeError` (the table
stores handler-less `MCPMethod` descriptors), so the reply is `-32000`
with the exception's string instead of a result — for every registered
tool, not just this one. -/
theorem c5_postInitCallRepliesAttrError :
    (handleMessage (Json.obj []) toolRegistry ⟨false⟩ echoCallMsg
       = ⟨⟨false⟩, [sendErrorDict (-32002) "Server not initialized" "9"]⟩) ∧
    (handleMessage (Json.obj []) toolRegistry ⟨true⟩ echoCallMsg
       = ⟨⟨true⟩, [sendErrorDict (-32000) handlerAttrError "9"]⟩) :=
  ⟨rfl, rfl⟩

/-! ## Claim C7 -/

/-- C7: response dedup in the relay client.  For a response message with a
non-`None`, non-`initialize` id, redelivery of the same message from the
socket layer results in exactly one write to the local peer, whichever way
the two loops interleave: (a) received twice then drained, the message is
enqueued once and written once; (b) received, drained (one write),
received again, drained — the second delivery is dropped by the
`processed_response_ids` fingerprint and nothing further is written. -/
theorem c7_redeliveryWritesOnce (h : Json → Int) (m v : Json)
    (hid : normRespId m = some v) (hni : isInitRespId v = false) :
    ((recvResponse h (recvResponse h RelayState.start m) m).queue = [m] ∧
     (drainAll h (recvResponse h (recvResponse h RelayState.start m) m)).2
       = [m]) ∧
    ((drainAll h (recvResponse h RelayState.start m)).2 = [m] ∧
     (drainAll h (recvResponse h
        (drainAll h (recvResponse h RelayState.start m)).1 m)).2 = []) := by
  have h1 : recvResponse h RelayState.start m =
      { processedIds := ["response-" ++ pyStr v ++ "-" ++ toString (h m)],
        sentIds := [], queue := [m], pending := [], connInit := false } := by
    unfold recvResponse
    rw [hid]
    simp [hni, RelayState.start]
  have hcontains :
      ["response-" ++ pyStr v ++ "-" ++ toString (h m)].contains
        ("response-" ++ pyStr v ++ "-" ++ toString (h m)) = true := by
    simp
  refine ⟨⟨?_, ?_⟩, ?_, ?_⟩
  · rw [h1]
    unfold recvResponse
    rw [hid]
    simp [hni, hcontains]
  · rw [h1]
    unfold recvResponse
    rw [hid]
    simp only [hni, Bool.false_eq_true, if_false, hcontains, if_true]
    simp [drainAll, drainList]
  · rw [h1]
    simp [drainAll, drainList]
  · rw [h1]
    simp only [drainAll, drainList]
    unfold recvResponse
    rw [hid]
    simp only [hni, Bool.false_eq_true, if_false, hcontains, if_true]
    simp [drainAll, drainList]

/-- C7, witness: a concrete response with id `"5"` delivered twice by the
socket layer, under a constant content hash, is written to the local peer
exactly once in either interleaving. -/
theorem c7_redeliveryWritesOnce_witness :
    ((recvResponse constHash (recvResponse constHash RelayState.start
        respMsg5) respMsg5).queue = [respMsg5] ∧
     (drainAll constHash (recvResponse constHash (recvResponse constHash
        RelayState.start respMsg5) respMsg5)).2 = [respMsg5]) ∧
    ((drainAll constHash (recvResponse constHash RelayState.start
        respMsg5)).2 = [respMsg5] ∧
     (drainAll constHash (recvResponse constHash
        (drainAll constHash (recvResponse constHash RelayState.start
          respMsg5)).1 respMsg5)).2 = []) :=
  c7_redeliveryWritesOnce constHash respMsg5 (Json.str "5") rfl rfl

end MCPGateway
